import Mathlib

/-!
Shallow embedding of the phd-agent research-workflow core, translated from
the Python sources:

* src/phd_agent/models.py           — data model (pydantic models, str enums)
* src/phd_agent/config.py           — Config and Config.validate
* src/phd_agent/agents/supervisor_agent.py — fallback decision logic and the
  workflow loop of SupervisorAgent
* src/phd_agent/agents/analyst_agent.py    — relevance/quality assessment,
  filtering, ranking, data summary
* src/phd_agent/agents/essay_writer_agent.py — essay requirement validation

Modelling conventions:
* Python floats carrying scores/lengths are modelled as rationals (ℚ).
* `ResearchStep` is a `str`-valued enum in the source; at runtime the agents
  mix enum members and raw string literals in `state.current_step` (pydantic
  does not re-validate on assignment), and all comparisons are string
  comparisons.  We therefore model `current_step` as a `String` and keep the
  enum as an inductive with its `value` projection.
* Calls to the generative text service are nondeterministic collaborators;
  they are modelled as explicit oracle parameters whose outcome is one of:
  a raised exception, an unparseable response, or a parsed JSON payload
  (with each key optional, mirroring `dict.get` with defaults).
* `datetime` fields and the free-form `metadata` dict do not influence any
  modelled computation and are omitted from the structures.
-/

/-- Enumeration of possible research workflow steps (models.py `ResearchStep`). -/
inductive ResearchStep where
  | INITIALIZED
  | COMPLETED
  | PDF_PROCESSING
  | PDF_COMPLETED
  | WEB_SEARCHING
  | WEB_SEARCH_COMPLETED
  | ANALYZING_DATA
  | ANALYSIS_COMPLETED
  | WRITING_ESSAY
  | ESSAY_COMPLETED
deriving DecidableEq, Repr

/-- The string value of each enum member, exactly as in models.py. -/
def ResearchStep.value : ResearchStep → String
  | .INITIALIZED => "initialized"
  | .COMPLETED => "completed"
  | .PDF_PROCESSING => "pdf_processing"
  | .PDF_COMPLETED => "pdf_processing_completed"
  | .WEB_SEARCHING => "web_searching"
  | .WEB_SEARCH_COMPLETED => "web_searching_completed"
  | .ANALYZING_DATA => "analyzing_data"
  | .ANALYSIS_COMPLETED => "analyzing_completed"
  | .WRITING_ESSAY => "writing_essay"
  | .ESSAY_COMPLETED => "writing_essay_completed"

/-- models.py `DocumentType` (str enum). -/
inductive DocumentType where
  | PDF
  | WEB
  | ESSAY
deriving DecidableEq, Repr

/-- String value of a `DocumentType` member. -/
def DocumentType.value : DocumentType → String
  | .PDF => "pdf"
  | .WEB => "web"
  | .ESSAY => "essay"

/-- models.py `DocumentSource` (datetime and free-form metadata omitted). -/
structure DocumentSource where
  id : Option String := none
  title : String
  content : String
  source_type : DocumentType
  url : Option String := none
  file_path : Option String := none
deriving DecidableEq, Repr

/-- models.py `SearchResult`. -/
structure SearchResult where
  title : String
  url : String
  snippet : String
  content : Option String := none
  relevance_score : Option ℚ := none
deriving DecidableEq, Repr

/-- models.py `ResearchTask` (datetime omitted). -/
structure ResearchTask where
  id : String
  topic : String
  requirements : String
  max_relevant_sources : Nat := 10
  essay_length : String := "medium"
  focus_areas : List String := []
deriving DecidableEq, Repr

/-- models.py `EssayOutline`. -/
structure EssayOutline where
  title : String
  introduction : String
  main_points : List String
  conclusion : String
  sources : List String
deriving DecidableEq, Repr

/-- models.py `Essay` (datetime omitted). -/
structure Essay where
  id : String
  title : String
  content : String
  outline : EssayOutline
  sources : List DocumentSource
  word_count : Nat
deriving DecidableEq, Repr

/-- models.py `EssayValidationResult`.  The expected length range
`tuple[int, float]` uses `float("inf")` as an upper bound in the source;
the upper bound is modelled as `Option Nat` with `none` standing for ∞. -/
structure EssayValidationResult where
  meets_length : Bool := true
  covers_topic : Bool := true
  has_sources : Bool := true
  issues : List String := []
  word_count : Nat := 0
  expected_length_range : Option (Nat × Option Nat) := none
  topic_coverage_score : Option ℚ := none
deriving DecidableEq, Repr

/-- models.py `EssayValidationResult.overall_valid` property. -/
def EssayValidationResult.overall_valid (r : EssayValidationResult) : Bool :=
  r.meets_length && r.covers_topic && r.has_sources && r.issues.isEmpty

/-- models.py `DocumentRelevanceAssessment`.  `document_id : str` is a
required pydantic field: constructing the model with `document_id=None`
raises `ValidationError`.  analyst_agent.py passes `document.id` (an
`Optional[str]`) verbatim, so construction is fallible there; see
`assess_document_relevance`. -/
structure DocumentRelevanceAssessment where
  document_id : String
  relevance_score : ℚ
  reasoning : String
  key_points : List String
  confidence : ℚ
deriving DecidableEq, Repr

/-- models.py `DocumentQualityAssessment`. -/
structure DocumentQualityAssessment where
  document_id : String
  credibility_score : ℚ
  information_quality : ℚ
  currency_score : ℚ
  overall_quality : String
  biases_limitations : List String
  recommendation : String
deriving DecidableEq, Repr

/-- models.py `CollectedDataSummary`.  The source-type histogram is an
insertion-ordered dict in Python, modelled as an association list. -/
structure CollectedDataSummary where
  total_documents : Nat
  source_distribution : List (String × Nat)
  average_content_length : ℚ
  total_content_length : Nat
  research_topic : String
  data_coverage : String
deriving DecidableEq, Repr

/-- models.py `AnalysisResults`. -/
structure AnalysisResults where
  data_summary : Option CollectedDataSummary := none
  relevance_assessments : List DocumentRelevanceAssessment := []
  filtered_documents : List (Option String) := []
  quality_metrics : List (String × ℚ) := []
  coverage_score : Option ℚ := none
  confidence_score : Option ℚ := none
deriving DecidableEq, Repr

/-- models.py `AgentState`.  `current_step` is a `String`: the source mixes
`ResearchStep` members (str enum, compared by value) and raw string literals
in this field. -/
structure AgentState where
  task : ResearchTask
  documents : List DocumentSource := []
  search_results : List SearchResult := []
  essay_outline : Option EssayOutline := none
  final_essay : Option Essay := none
  essay_validation_result : Option EssayValidationResult := none
  analysis_results : AnalysisResults := {}
  current_step : String := "initialized"
  errors : List String := []
deriving DecidableEq, Repr

/-- config.py `Config` (the fields consumed by the modelled core). -/
structure Config where
  OPENAI_API_KEY : String := ""
  RELEVANCE_THRESHOLD : ℚ := 6/10
  ENABLE_WEB_SEARCH : Bool := true
deriving DecidableEq, Repr

/-- config.py `Config.validate`: raises `ValueError("OpenAI API key is
required")` when the key is empty (Python falsy string), otherwise returns
True.  The raise is modelled as `Except.error`. -/
def Config.validate (c : Config) : Except String Bool :=
  if c.OPENAI_API_KEY = "" then
    .error "OpenAI API key is required"
  else
    .ok true

/-- The decision dictionary produced by `determine_next_step` /
`_fallback_decision_logic` in supervisor_agent.py, after the
`decision.get("next_step", "completed")` / `decision.get("should_continue",
False)` projections have a defined value for every key. -/
structure Decision where
  next_step : String
  reasoning : String
  should_continue : Bool
  recommendations : List String
deriving DecidableEq, Repr

/-- supervisor_agent.py `SupervisorAgent._fallback_decision_logic`: the
deterministic fallback used when the LLM decision cannot be obtained or
parsed.  It branches on string equality of `state.current_step` with the
literals appearing in the source. -/
def fallback_decision_logic (cfg : Config) (state : AgentState) : Decision :=
  if state.current_step = "initialized" then
    { next_step := "pdf_processing"
      reasoning := "Starting with PDF processing"
      should_continue := true
      recommendations := ["Process any available PDF documents"] }
  else if state.current_step = "pdf_completed" then
    if cfg.ENABLE_WEB_SEARCH then
      { next_step := "web_searching"
        reasoning := "Moving to web search for additional sources"
        should_continue := true
        recommendations := ["Search for relevant web content"] }
    else
      { next_step := "analyzing_data"
        reasoning := "Web search disabled, moving directly to analysis"
        should_continue := true
        recommendations := ["Analyze PDF documents only"] }
  else if state.current_step = "web_search_completed" then
    { next_step := "analyzing_data"
      reasoning := "Analyzing collected documents for relevance"
      should_continue := true
      recommendations := ["Filter and rank documents"] }
  else if state.current_step = "analysis_completed" then
    { next_step := "writing_essay"
      reasoning := "Writing essay with analyzed data"
      should_continue := true
      recommendations := ["Create essay outline and write essay"] }
  else if state.current_step = "essay_completed" then
    { next_step := "completed"
      reasoning := "Research workflow completed"
      should_continue := false
      recommendations := ["Review final essay"] }
  else
    { next_step := "completed"
      reasoning := "Unknown state, marking as completed"
      should_continue := false
      recommendations := ["Check for errors"] }

/-- A concrete research task used in concrete evaluations. -/
def sampleTask : ResearchTask :=
  { id := "task-1"
    topic := "formal methods"
    requirements := "survey recent progress" }

/-- A concrete agent state whose current step is
`ResearchStep.ANALYSIS_COMPLETED` (string value "analyzing_completed"),
exactly what analyst_agent.py assigns on completion. -/
def stateAfterAnalysis : AgentState :=
  { task := sampleTask
    current_step := ResearchStep.ANALYSIS_COMPLETED.value }

/-- Lowercasing, Python `str.lower()`, written over the character list so
that it evaluates by kernel reduction. -/
def lowerStr (s : String) : String := String.mk (s.data.map Char.toLower)

/-- Whether the character list starts with the given pattern. -/
def listStartsWith : List Char → List Char → Bool
  | _, [] => true
  | [], _ :: _ => false
  | c :: s, p :: ps => c == p && listStartsWith s ps

/-- Substring containment on character lists (Python `pat in s`). -/
def listHasSub (pat : List Char) : List Char → Bool
  | [] => pat.isEmpty
  | c :: rest => listStartsWith (c :: rest) pat || listHasSub pat rest

/-- Python `pat in s` on strings. -/
def strIncludes (s pat : String) : Bool := listHasSub pat.data s.data

/-- Helper for `pySplitWs`: accumulates the current word (reversed). -/
def pySplitWsAux (acc : List Char) : List Char → List String
  | [] => if acc = [] then [] else [String.mk acc.reverse]
  | c :: rest =>
      if c.isWhitespace then
        if acc = [] then pySplitWsAux [] rest
        else String.mk acc.reverse :: pySplitWsAux [] rest
      else pySplitWsAux (c :: acc) rest

/-- Python `str.split()` with no separator: split on whitespace runs,
dropping empty fields. -/
def pySplitWs (s : String) : List String := pySplitWsAux [] s.data

/-- essay_writer_agent.py `_validate_essay_requirements`: check the essay
against the length policy, topic coverage and (nominally) source presence.
Mirrors the source statement by statement; note that the source never
assigns `has_sources`, so the model default `true` persists. -/
def validate_essay_requirements (essay : Essay) (requirements : String) :
    EssayValidationResult :=
  let result : EssayValidationResult := { word_count := essay.word_count }
  -- Check length requirements
  let result :=
    if strIncludes (lowerStr requirements) "short" then
      let result := { result with expected_length_range := some (0, some 1000) }
      if essay.word_count > 1000 then
        { result with
            meets_length := false
            issues := result.issues ++ ["Essay is longer than requested for short format"] }
      else result
    else if strIncludes (lowerStr requirements) "long" then
      let result := { result with expected_length_range := some (2000, none) }
      if essay.word_count < 2000 then
        { result with
            meets_length := false
            issues := result.issues ++ ["Essay is shorter than requested for long format"] }
      else result
    else
      let result := { result with expected_length_range := some (1000, some 2000) }
      if essay.word_count < 1000 ∨ essay.word_count > 2000 then
        { result with
            meets_length := false
            issues := result.issues ++ ["Essay length does not meet medium format requirements"] }
      else result
  -- Check topic coverage
  let topic_words := ((pySplitWs requirements).filter (fun w => w.length > 3)).map lowerStr
  let content_lower := lowerStr essay.content
  let topic_coverage := (topic_words.filter (fun w => strIncludes content_lower w)).length
  let score : ℚ := if topic_words.length ≠ 0 then
      (topic_coverage : ℚ) / (topic_words.length : ℚ) else 0
  let result := { result with topic_coverage_score := some score }
  let result :=
    if score < 1/2 then
      { result with
          covers_topic := false
          issues := result.issues ++ ["Essay may not fully cover the research topic"] }
    else result
  result

/-- A minimal outline for concrete essay values. -/
def sampleOutline : EssayOutline :=
  { title := "T"
    introduction := "intro"
    main_points := ["p1"]
    conclusion := "end"
    sources := [] }

/-- A concrete essay with an empty `sources` list. -/
def essayNoSources : Essay :=
  { id := "e1"
    title := "T"
    content := "formal methods survey with recent progress discussed"
    outline := sampleOutline
    sources := []
    word_count := 1500 }

/-- The outcome of one generative-service relevance call for a document, as
seen by `assess_document_relevance` (analyst_agent.py): the service may
raise, return an unparseable response (`json.JSONDecodeError`), or return a
parsed JSON object in which every expected key is optional (read back with
`dict.get` defaults). -/
structure RelevanceData where
  relevance_score : Option ℚ := none
  reasoning : Option String := none
  key_points : Option (List String) := none
  confidence : Option ℚ := none
deriving DecidableEq, Repr

/-- Collaborator outcome for a relevance-scoring call. -/
inductive LLMRelevanceOutcome where
  | raised (msg : String)
  | badJson
  | parsed (d : RelevanceData)
deriving DecidableEq, Repr

/-- Stands for `str(pydantic.ValidationError)` raised when
`DocumentRelevanceAssessment` is constructed with `document_id=None`; the
exact text is not load-bearing. -/
def documentIdValidationError : String :=
  "1 validation error for DocumentRelevanceAssessment: document_id"

/-- analyst_agent.py `AnalystAgent.assess_document_relevance`.  The prompt
(with content truncated to 2000 characters) and the LLM call are the
collaborator; its outcome is the `oracle` parameter.  A `JSONDecodeError`
substitutes the fallback dict `{relevance_score: 0.5, reasoning: "Unable to
parse assessment", key_points: [], confidence: 0.5}`; a raised error yields
the default assessment with score 0.5 and confidence 0.0.  When
`document.id` is `None`, building `DocumentRelevanceAssessment` raises
`ValidationError` inside the try, the except branch rebuilds it with the
same `None` id and raises again, and that exception escapes the call —
modelled as `Except.error`, for every oracle outcome. -/
def assess_document_relevance
    (oracle : DocumentSource → String → String → LLMRelevanceOutcome)
    (document : DocumentSource) (topic requirements : String) :
    Except String DocumentRelevanceAssessment :=
  match document.id with
  | none => Except.error documentIdValidationError
  | some docId =>
      match oracle document topic requirements with
      | .parsed d =>
          Except.ok
            { document_id := docId
              relevance_score := d.relevance_score.getD (1/2)
              reasoning := d.reasoning.getD "No reasoning provided"
              key_points := d.key_points.getD []
              confidence := d.confidence.getD (1/2) }
      | .badJson =>
          Except.ok
            { document_id := docId
              relevance_score := 1/2
              reasoning := "Unable to parse assessment"
              key_points := []
              confidence := 1/2 }
      | .raised msg =>
          Except.ok
            { document_id := docId
              relevance_score := 1/2
              reasoning := "Error during assessment: " ++ msg
              key_points := []
              confidence := 0 }

/-- analyst_agent.py `AnalystAgent.filter_documents_by_relevance`: the
Python for-loop appends each document's assessment, and the document itself
when its score passes the threshold; rendered as list recursion producing
the same two lists in the same order.  The loop body has no try/except, so
a `ValidationError` escaping `assess_document_relevance` propagates out of
the first offending document and drops the whole batch — `Except.error`. -/
def filter_documents_by_relevance
    (oracle : DocumentSource → String → String → LLMRelevanceOutcome)
    (documents : List DocumentSource) (topic requirements : String)
    (threshold : ℚ) :
    Except String (List DocumentSource × List DocumentRelevanceAssessment) :=
  match documents with
  | [] => Except.ok ([], [])
  | document :: rest =>
      match assess_document_relevance oracle document topic requirements with
      | Except.error e => Except.error e
      | Except.ok assessment =>
          match filter_documents_by_relevance oracle rest topic requirements threshold with
          | Except.error e => Except.error e
          | Except.ok tail =>
              if assessment.relevance_score ≥ threshold then
                Except.ok (document :: tail.1, assessment :: tail.2)
              else
                Except.ok (tail.1, assessment :: tail.2)

/-- Parsed JSON payload of a quality-scoring call, every key optional
(read back with `dict.get` defaults in analyst_agent.py). -/
structure QualityData where
  credibility_score : Option ℚ := none
  information_quality : Option ℚ := none
  currency_score : Option ℚ := none
  overall_quality : Option String := none
  biases_limitations : Option (List String) := none
  recommendation : Option String := none
deriving DecidableEq, Repr

/-- Collaborator outcome for a quality-scoring call. -/
inductive LLMQualityOutcome where
  | raised (msg : String)
  | badJson
  | parsed (d : QualityData)
deriving DecidableEq, Repr

/-- analyst_agent.py `AnalystAgent.assess_document_quality`.  A
`JSONDecodeError` substitutes the fallback dict (all scores 0.5, quality
"medium", recommendation "include"); a raised error yields the analogous
default assessment recording the error message. -/
def assess_document_quality (oracle : DocumentSource → LLMQualityOutcome)
    (document : DocumentSource) : DocumentQualityAssessment :=
  match oracle document with
  | .parsed d =>
      { document_id := document.id.getD ""
        credibility_score := d.credibility_score.getD (1/2)
        information_quality := d.information_quality.getD (1/2)
        currency_score := d.currency_score.getD (1/2)
        overall_quality := d.overall_quality.getD "medium"
        biases_limitations := d.biases_limitations.getD ["Unable to assess"]
        recommendation := d.recommendation.getD "include" }
  | .badJson =>
      { document_id := document.id.getD ""
        credibility_score := 1/2
        information_quality := 1/2
        currency_score := 1/2
        overall_quality := "medium"
        biases_limitations := ["Unable to assess"]
        recommendation := "include" }
  | .raised msg =>
      { document_id := document.id.getD ""
        credibility_score := 1/2
        information_quality := 1/2
        currency_score := 1/2
        overall_quality := "medium"
        biases_limitations := ["Error during assessment: " ++ msg]
        recommendation := "include" }

/-- analyst_agent.py `quality_score` (local function in
`rank_documents_by_quality`): arithmetic mean of the three axes. -/
def quality_score (quality_assessment : DocumentQualityAssessment) : ℚ :=
  (quality_assessment.credibility_score
    + quality_assessment.information_quality
    + quality_assessment.currency_score) / 3

/-- Insert into a descending-sorted list, after all entries whose key is at
least as large: exactly where a stable descending sort places a new element
arriving after the listed ones. -/
def insertByKeyDesc {α : Type} (key : α → ℚ) (x : α) : List α → List α
  | [] => [x]
  | y :: ys => if key x ≥ key y then x :: y :: ys else y :: insertByKeyDesc key x ys

/-- Stable descending sort by a rational key (insertion sort).  Python's
`sorted(xs, key=k, reverse=True)` is specified to be stable with descending
comparison, and the stable descending sort by a given key is unique as a
function of the input list, so this realisation is extensionally the
source's sort. -/
def sortByKeyDesc {α : Type} (key : α → ℚ) : List α → List α
  | [] => []
  | x :: xs => insertByKeyDesc key x (sortByKeyDesc key xs)

/-- analyst_agent.py `AnalystAgent.rank_documents_by_quality`: assess each
document, sort the (document, quality) pairs by mean quality score
descending with a stable sort, and return the documents. -/
def rank_documents_by_quality (oracle : DocumentSource → LLMQualityOutcome)
    (documents : List DocumentSource) : List DocumentSource :=
  let document_qualities :=
    documents.map (fun document => (document, assess_document_quality oracle document))
  let sorted_documents :=
    sortByKeyDesc (fun x => quality_score x.2) document_qualities
  sorted_documents.map Prod.fst

/-- Python `counts[k] = counts.get(k, 0) + 1` on an insertion-ordered dict
rendered on an association list. -/
def bumpCount (k : String) : List (String × Nat) → List (String × Nat)
  | [] => [(k, 1)]
  | (q, n) :: rest => if q = k then (q, n + 1) :: rest else (q, n) :: bumpCount k rest

/-- analyst_agent.py `_generate_data_summary`. -/
def generate_data_summary (documents : List DocumentSource) (topic : String) :
    CollectedDataSummary :=
  if documents.isEmpty then
    { total_documents := 0
      source_distribution := []
      average_content_length := 0
      total_content_length := 0
      research_topic := topic
      data_coverage := "none" }
  else
    let source_counts :=
      documents.foldl (fun counts doc => bumpCount doc.source_type.value counts) []
    let total_length : Nat := (documents.map (fun doc => doc.content.length)).sum
    let avg_length : ℚ := (total_length : ℚ) / (documents.length : ℚ)
    let coverage :=
      if documents.length ≥ 10 then "comprehensive"
      else if documents.length ≥ 5 then "moderate"
      else "limited"
    { total_documents := documents.length
      source_distribution := source_counts
      average_content_length := avg_length
      total_content_length := total_length
      research_topic := topic
      data_coverage := coverage }

/-- analyst_agent.py `AnalystAgent.run`: set the step to ANALYZING_DATA,
return immediately when there are no documents, otherwise filter by
relevance (threshold from config), rank by quality, truncate to
`max_relevant_sources`, rebuild `analysis_results`, and mark the analysis
completed.  An exception escaping relevance filtering (a `ValidationError`
for a document with no id) is caught by the outer try/except, which appends
"Analyst Agent error: ..." and returns the state with `current_step` still
ANALYZING_DATA (set before the raise). -/
def AnalystAgent.run (relOracle : DocumentSource → String → String → LLMRelevanceOutcome)
    (qualOracle : DocumentSource → LLMQualityOutcome) (cfg : Config)
    (state : AgentState) : AgentState :=
  let state := { state with current_step := ResearchStep.ANALYZING_DATA.value }
  if state.documents.isEmpty then
    { state with current_step := ResearchStep.ANALYSIS_COMPLETED.value }
  else
    match filter_documents_by_relevance relOracle state.documents
      state.task.topic state.task.requirements cfg.RELEVANCE_THRESHOLD with
    | Except.error e =>
        { state with errors := state.errors ++ ["Analyst Agent error: " ++ e] }
    | Except.ok filtered =>
        let relevant_docs := filtered.1
        let assessments := filtered.2
        let ranked_docs := rank_documents_by_quality qualOracle relevant_docs
        let state := { state with documents := ranked_docs.take state.task.max_relevant_sources }
        let summary := generate_data_summary state.documents state.task.topic
        let state :=
          { state with
              analysis_results :=
                { data_summary := some summary
                  relevance_assessments := assessments
                  filtered_documents := state.documents.map (fun doc : DocumentSource => doc.id)
                  quality_metrics :=
                    [("total_assessed", (assessments.length : ℚ)),
                     ("relevant_found", (state.documents.length : ℚ))] } }
        { state with current_step := ResearchStep.ANALYSIS_COMPLETED.value }

/-- supervisor_agent.py `SupervisorAgent.create_research_task`.  The
generated `uuid.uuid4()` is the `taskId` parameter.  The source passes
`max_sources=...` to `ResearchTask`, but the model has no such field
(`max_relevant_sources` is the field name) and pydantic silently ignores
unknown keys, so `max_relevant_sources` keeps its default 10. -/
def create_research_task (taskId topic requirements : String)
    (_max_sources : Nat) (essay_length : String) : ResearchTask :=
  { id := taskId
    topic := topic
    requirements := requirements
    max_relevant_sources := 10
    essay_length := essay_length }

/-- supervisor_agent.py `SupervisorAgent.initialize_state`. -/
def initialize_state (task : ResearchTask) : AgentState :=
  { task := task, current_step := "initialized" }

/-- The body of the supervisor while-loop
(`while iteration < max_iterations` in `run_research_workflow`),
parameterised by the decision strategy (`determine_next_step`, whose
LLM-or-fallback behaviour is arbitrary here) and the step executor
(`execute_step`, which in the source dispatches to the agents, catches
their exceptions, and records unknown steps as errors).  `fuel` is
`max_iterations - iteration`; the returned `Nat` is the final value of the
loop counter `iteration`, i.e. the number of iterations executed.
`pdf_paths` is set to `none` after the first iteration, as in the source. -/
def workflowLoop (decide_next : AgentState → Decision)
    (exec : AgentState → String → Option (List String) → AgentState) :
    Nat → AgentState → Option (List String) → Nat → AgentState × Nat
  | 0, state, _, iteration => (state, iteration)
  | fuel + 1, state, pdf_paths, iteration =>
      let iteration := iteration + 1
      let decision := decide_next state
      let next_step := decision.next_step
      let should_continue := decision.should_continue
      let state := exec state next_step pdf_paths
      if ¬should_continue ∨ next_step = "completed" then (state, iteration)
      else if state.errors.length > 5 then (state, iteration)
      else workflowLoop decide_next exec fuel state none iteration

/-- supervisor_agent.py `SupervisorAgent.run_research_workflow`: create the
task and initial state, then run the loop with `max_iterations = 10` and
`iteration = 0`.  Returns the final state together with the loop counter. -/
def run_research_workflow (decide_next : AgentState → Decision)
    (exec : AgentState → String → Option (List String) → AgentState)
    (taskId topic requirements : String) (max_sources : Nat)
    (essay_length : String) (pdf_paths : Option (List String)) :
    AgentState × Nat :=
  let task := create_research_task taskId topic requirements max_sources essay_length
  let state := initialize_state task
  workflowLoop decide_next exec 10 state pdf_paths 0

/-- supervisor_agent.py `SupervisorAgent.run`: validate the configuration,
run the workflow, and on any raised error return a freshly initialized
state with the error message appended (the `except` branch).  Within the
model the only raising site is `Config.validate`; `execute_step` and the
loop catch their own errors in the source. -/
def SupervisorAgent.run (cfg : Config) (decide_next : AgentState → Decision)
    (exec : AgentState → String → Option (List String) → AgentState)
    (taskId topic requirements : String) (max_sources : Nat)
    (essay_length : String) (pdf_paths : Option (List String)) : AgentState :=
  match cfg.validate with
  | .ok _ =>
      (run_research_workflow decide_next exec taskId topic requirements
        max_sources essay_length pdf_paths).1
  | .error e =>
      let task := create_research_task taskId topic requirements max_sources essay_length
      let state := initialize_state task
      { state with errors := state.errors ++ ["Supervisor error: " ++ e] }

/-- Strong ordering used to state sort stability: `a` properly precedes `b`
when its key is strictly larger, or the keys tie and `a` carries the
smaller input index. -/
def rankedBefore {α : Type} (key : α → ℚ) (idx : α → Nat) (a b : α) : Prop :=
  key b < key a ∨ (key a = key b ∧ idx a < idx b)

/-- A concrete document used in concrete evaluations. -/
def sampleDoc : DocumentSource :=
  { id := some "d1"
    title := "Doc 1"
    content := "lorem ipsum"
    source_type := DocumentType.PDF }

/-- A second concrete document. -/
def sampleDoc2 : DocumentSource :=
  { id := some "d2"
    title := "Doc 2"
    content := "dolor sit amet"
    source_type := DocumentType.WEB }

/-- A concrete document whose `id` is `None` — the field's default in
models.py (ids are only assigned on persistence). -/
def docNoId : DocumentSource :=
  { title := "Unsaved doc"
    content := "consectetur"
    source_type := DocumentType.PDF }

lemma assess_document_relevance_ok
    (oracle : DocumentSource → String → String → LLMRelevanceOutcome)
    (document : DocumentSource) (topic requirements : String)
    (docId : String) (hid : document.id = some docId) :
    ∃ a : DocumentRelevanceAssessment,
      assess_document_relevance oracle document topic requirements = Except.ok a := by
  unfold assess_document_relevance
  rw [hid]
  cases oracle document topic requirements with
  | parsed d => exact ⟨_, rfl⟩
  | badJson => exact ⟨_, rfl⟩
  | raised msg => exact ⟨_, rfl⟩

lemma filter_documents_ok
    (oracle : DocumentSource → String → String → LLMRelevanceOutcome)
    (documents : List DocumentSource) (topic requirements : String)
    (threshold : ℚ) (hid : ∀ d ∈ documents, d.id ≠ none) :
    filter_documents_by_relevance oracle documents topic requirements threshold
      = Except.ok
          (documents.filter (fun d =>
             match assess_document_relevance oracle d topic requirements with
             | Except.ok a => decide (threshold ≤ a.relevance_score)
             | Except.error _ => false),
           documents.filterMap (fun d =>
             (assess_document_relevance oracle d topic requirements).toOption)) := by
  induction documents with
  | nil => rfl
  | cons d rest ih =>
      have hd : d.id ≠ none := hid d (List.mem_cons_self d rest)
      obtain ⟨docId, hdid⟩ := Option.ne_none_iff_exists'.mp hd
      obtain ⟨a, ha⟩ := assess_document_relevance_ok oracle d topic requirements docId hdid
      have hrest := ih (fun x hx => hid x (List.mem_cons_of_mem d hx))
      unfold filter_documents_by_relevance
      rw [ha, hrest]
      by_cases hth : threshold ≤ a.relevance_score
      · simp [List.filter_cons, List.filterMap_cons, ha, hth, ge_iff_le, Except.toOption]
      · simp [List.filter_cons, List.filterMap_cons, ha, hth, ge_iff_le, Except.toOption]

lemma filterMap_assess_length
    (oracle : DocumentSource → String → String → LLMRelevanceOutcome)
    (documents : List DocumentSource) (topic requirements : String)
    (hid : ∀ d ∈ documents, d.id ≠ none) :
    (documents.filterMap (fun d =>
        (assess_document_relevance oracle d topic requirements).toOption)).length
      = documents.length := by
  induction documents with
  | nil => rfl
  | cons d rest ih =>
      have hd : d.id ≠ none := hid d (List.mem_cons_self d rest)
      obtain ⟨docId, hdid⟩ := Option.ne_none_iff_exists'.mp hd
      obtain ⟨a, ha⟩ := assess_document_relevance_ok oracle d topic requirements docId hdid
      have ih2 := ih (fun x hx => hid x (List.mem_cons_of_mem d hx))
      simp only [Except.toOption] at ih2
      simp only [List.filterMap_cons, ha, Except.toOption, List.length_cons]
      rw [ih2]

/-- C5 counterexample: filtering a list that contains a document with
`id = None` (the field's default) does not return a (kept, assessments)
pair at all: constructing its `DocumentRelevanceAssessment` raises pydantic
`ValidationError` — in the try and again in the except fallback — and the
exception escapes `filter_documents_by_relevance`, so the claimed shape of
the result is false for this input. -/
theorem filter_documents_raises_counterexample :
    filter_documents_by_relevance (fun _ _ _ => LLMRelevanceOutcome.badJson)
        [docNoId] "t" "r" (6/10) = Except.error documentIdValidationError
    ∧ docNoId.id = none :=
  ⟨rfl, rfl⟩

/-- C5 (amended): for every document list in which every document has an
assigned id, relevance filtering returns (kept, assessments) where: a
document of the input is kept iff its (successful) assessment's score is at
least the caller-supplied threshold; the kept list is a sublist of the
input (original relative order preserved); and the assessment list has
exactly one assessment per input document, in input order, rejected
documents included.  (A document with no id makes the call raise instead of
returning; see the counterexample.) -/
theorem filter_documents_by_relevance_spec
    (oracle : DocumentSource → String → String → LLMRelevanceOutcome)
    (documents : List DocumentSource) (topic requirements : String)
    (threshold : ℚ) (hid : ∀ d ∈ documents, d.id ≠ none) :
    ∃ kept assessments,
      filter_documents_by_relevance oracle documents topic requirements threshold
        = Except.ok (kept, assessments)
      ∧ assessments = documents.filterMap (fun d =>
          (assess_document_relevance oracle d topic requirements).toOption)
      ∧ assessments.length = documents.length
      ∧ kept = documents.filter (fun d =>
          match assess_document_relevance oracle d topic requirements with
          | Except.ok a => decide (threshold ≤ a.relevance_score)
          | Except.error _ => false)
      ∧ kept.Sublist documents
      ∧ ∀ d ∈ documents,
          (d ∈ kept ↔ ∃ a, assess_document_relevance oracle d topic requirements
              = Except.ok a ∧ threshold ≤ a.relevance_score) := by
  refine ⟨_, _, filter_documents_ok oracle documents topic requirements threshold hid,
    rfl, filterMap_assess_length oracle documents topic requirements hid, rfl,
    List.filter_sublist documents, ?_⟩
  intro d hd
  rw [List.mem_filter]
  constructor
  · rintro ⟨_, hpred⟩
    cases hassess : assess_document_relevance oracle d topic requirements with
    | error e =>
        rw [hassess] at hpred
        simp at hpred
    | ok a =>
        rw [hassess] at hpred
        simp only [decide_eq_true_eq] at hpred
        exact ⟨a, rfl, hpred⟩
  · rintro ⟨a, hok, hth⟩
    refine ⟨hd, ?_⟩
    rw [hok]
    simpa using hth

/-- Witness for C5 at a concrete input: two documents with ids, an oracle
scoring `sampleDoc` at 1 and `sampleDoc2` at 0, threshold 1; filtering
returns normally with one assessment per document. -/
theorem filter_documents_by_relevance_spec_witness :
    ∃ kept assessments,
      filter_documents_by_relevance
          (fun d _ _ => if d.id = some "d1"
            then LLMRelevanceOutcome.parsed { relevance_score := some 1 }
            else LLMRelevanceOutcome.parsed { relevance_score := some 0 })
          [sampleDoc, sampleDoc2] "t" "r" 1
        = Except.ok (kept, assessments)
      ∧ assessments.length = 2 := by
  obtain ⟨kept, assessments, hok, _, hlen, _, _, _⟩ :=
    filter_documents_by_relevance_spec
      (fun d _ _ => if d.id = some "d1"
        then LLMRelevanceOutcome.parsed { relevance_score := some 1 }
        else LLMRelevanceOutcome.parsed { relevance_score := some 0 })
      [sampleDoc, sampleDoc2] "t" "r" 1 (by decide)
  exact ⟨kept, assessments, hok, by rw [hlen]; rfl⟩

/-- C3 counterexample: the claimed per-failure defaults are not what the
code produces, and the batch is not always kept.  On an unparseable
response the assessment has confidence 0.5 (not the claimed 0.0); on a
raised service error it has relevance_score 0.5 (not the claimed 0.0); and
for a document whose id is `None` the assessment construction raises — in
the try and again in the except fallback — so the document receives no
assessment and the whole batch is dropped. -/
theorem relevance_default_values_counterexample :
    assess_document_relevance (fun _ _ _ => LLMRelevanceOutcome.badJson)
        sampleDoc "t" "r"
      = Except.ok { document_id := "d1"
                    relevance_score := 1/2
                    reasoning := "Unable to parse assessment"
                    key_points := []
                    confidence := 1/2 }
    ∧ assess_document_relevance (fun _ _ _ => LLMRelevanceOutcome.raised "boom")
        sampleDoc "t" "r"
      = Except.ok { document_id := "d1"
                    relevance_score := 1/2
                    reasoning := "Error during assessment: boom"
                    key_points := []
                    confidence := 0 }
    ∧ ¬ (1/2 : ℚ) = 0
    ∧ filter_documents_by_relevance (fun _ _ _ => LLMRelevanceOutcome.raised "boom")
        [docNoId] "t" "r" (6/10) = Except.error documentIdValidationError :=
  ⟨rfl, rfl, by norm_num, rfl⟩

/-- C3 (amended): for a document with an assigned id, a per-document
failure substitutes a neutral default and scoring continues: an
unparseable response yields score 0.5 with confidence 0.5, a raised
service error yields score 0.5 with confidence 0.0, and every document of
a batch whose documents all have ids receives exactly one assessment.  A
document with no id instead raises pydantic ValidationError (in the try
and again in the except fallback) and the batch is dropped. -/
theorem relevance_neutral_defaults
    (oracle : DocumentSource → String → String → LLMRelevanceOutcome)
    (document : DocumentSource) (topic requirements msg : String)
    (docId : String) (hid : document.id = some docId) :
    (oracle document topic requirements = LLMRelevanceOutcome.badJson →
      assess_document_relevance oracle document topic requirements
        = Except.ok { document_id := docId
                      relevance_score := 1/2
                      reasoning := "Unable to parse assessment"
                      key_points := []
                      confidence := 1/2 })
    ∧ (oracle document topic requirements = LLMRelevanceOutcome.raised msg →
      assess_document_relevance oracle document topic requirements
        = Except.ok { document_id := docId
                      relevance_score := 1/2
                      reasoning := "Error during assessment: " ++ msg
                      key_points := []
                      confidence := 0 })
    ∧ (∀ (documents : List DocumentSource) (threshold : ℚ),
        (∀ d ∈ documents, d.id ≠ none) →
        ∃ kept assessments,
          filter_documents_by_relevance oracle documents topic requirements threshold
            = Except.ok (kept, assessments)
          ∧ assessments.length = documents.length)
    ∧ ∀ doc2 : DocumentSource, doc2.id = none →
        assess_document_relevance oracle doc2 topic requirements
          = Except.error documentIdValidationError := by
  refine ⟨?_, ?_, ?_, ?_⟩
  · intro h
    unfold assess_document_relevance
    rw [hid, h]
  · intro h
    unfold assess_document_relevance
    rw [hid, h]
  · intro documents threshold hids
    exact ⟨_, _, filter_documents_ok oracle documents topic requirements threshold hids,
      filterMap_assess_length oracle documents topic requirements hids⟩
  · intro doc2 h2
    unfold assess_document_relevance
    rw [h2]

/-- Witness for C3 at concrete inputs, one oracle per failure mode, plus a
concrete all-ids batch and a concrete id-less document. -/
theorem relevance_neutral_defaults_witness :
    assess_document_relevance (fun _ _ _ => LLMRelevanceOutcome.badJson) sampleDoc2 "t" "r"
      = Except.ok { document_id := "d2"
                    relevance_score := 1/2
                    reasoning := "Unable to parse assessment"
                    key_points := []
                    confidence := 1/2 }
    ∧ assess_document_relevance (fun _ _ _ => LLMRelevanceOutcome.raised "boom")
        sampleDoc2 "t" "r"
      = Except.ok { document_id := "d2"
                    relevance_score := 1/2
                    reasoning := "Error during assessment: boom"
                    key_points := []
                    confidence := 0 }
    ∧ (∃ kept assessments,
        filter_documents_by_relevance (fun _ _ _ => LLMRelevanceOutcome.badJson)
            [sampleDoc, sampleDoc2] "t" "r" 1
          = Except.ok (kept, assessments) ∧ assessments.length = 2)
    ∧ assess_document_relevance (fun _ _ _ => LLMRelevanceOutcome.badJson) docNoId "t" "r"
      = Except.error documentIdValidationError := by
  refine ⟨(relevance_neutral_defaults (fun _ _ _ => LLMRelevanceOutcome.badJson)
      sampleDoc2 "t" "r" "boom" "d2" rfl).1 rfl,
    (relevance_neutral_defaults (fun _ _ _ => LLMRelevanceOutcome.raised "boom")
      sampleDoc2 "t" "r" "boom" "d2" rfl).2.1 rfl, ?_,
    (relevance_neutral_defaults (fun _ _ _ => LLMRelevanceOutcome.badJson)
      sampleDoc "t" "r" "boom" "d1" rfl).2.2.2 docNoId rfl⟩
  obtain ⟨kept, assessments, hok, hlen⟩ :=
    (relevance_neutral_defaults (fun _ _ _ => LLMRelevanceOutcome.badJson)
      sampleDoc "t" "r" "boom" "d1" rfl).2.2.1 [sampleDoc, sampleDoc2] 1 (by decide)
  exact ⟨kept, assessments, hok, by rw [hlen]; rfl⟩

/-- C4 counterexample: validating a concrete essay whose `sources` list is
empty still yields `has_sources = true`, because
`_validate_essay_requirements` never assigns the field — the claimed
equality `has_sources = (len(artifact.sources) > 0)` fails at this input. -/
theorem validate_essay_has_sources_counterexample :
    (validate_essay_requirements essayNoSources
        "medium coverage of formal methods").has_sources = true
    ∧ essayNoSources.sources = [] := by
  constructor
  · simp only [validate_essay_requirements]
    split_ifs <;> rfl
  · rfl

/-- C4 (amended): for every essay artifact and requirements string the
validation result's `has_sources` field equals `true` — its model default —
regardless of `artifact.sources`; the validation never inspects the sources
list. -/
theorem validate_essay_has_sources_always_true (essay : Essay) (requirements : String) :
    (validate_essay_requirements essay requirements).has_sources = true := by
  simp only [validate_essay_requirements]
  split_ifs <;> rfl

/-- C1: the fallback table as claimed fails on the code.  With
`current_step = ResearchStep.ANALYSIS_COMPLETED.value = "analyzing_completed"`
(the value analyst_agent.py actually stores), the fallback compares against
the stale literal "analysis_completed", misses every branch, and returns
next_step "completed" with should_continue false — for either value of the
secondary-source flag — instead of the claimed "writing_essay".  The same
mismatch hits PDF_COMPLETED ("pdf_processing_completed" vs the literal
"pdf_completed") and WEB_SEARCH_COMPLETED ("web_searching_completed" vs the
literal "web_search_completed"). -/
theorem fallback_stale_step_literals_bug :
    (fallback_decision_logic { OPENAI_API_KEY := "k" } stateAfterAnalysis).next_step
        = "completed"
    ∧ (fallback_decision_logic { OPENAI_API_KEY := "k" } stateAfterAnalysis).should_continue
        = false
    ∧ (fallback_decision_logic { OPENAI_API_KEY := "k", ENABLE_WEB_SEARCH := false }
          stateAfterAnalysis).next_step = "completed"
    ∧ (fallback_decision_logic { OPENAI_API_KEY := "k" }
          { task := sampleTask, current_step := ResearchStep.PDF_COMPLETED.value }).next_step
        = "completed" := by
  refine ⟨?_, ?_, ?_, ?_⟩ <;> decide

/-- C7: the data summary's coverage bucket is a function of the document
count alone with the claimed thresholds, and the average content length is
the total content length divided by the count (0 when empty). -/
theorem generate_data_summary_spec (documents : List DocumentSource) (topic : String) :
    (generate_data_summary documents topic).data_coverage
      = (if documents.length = 0 then "none"
         else if documents.length < 5 then "limited"
         else if documents.length < 10 then "moderate"
         else "comprehensive")
    ∧ (generate_data_summary documents topic).average_content_length
      = (if documents.length = 0 then 0
         else ((generate_data_summary documents topic).total_content_length : ℚ)
                / (documents.length : ℚ)) := by
  by_cases hemp : documents.isEmpty
  · have hlen : documents.length = 0 := by
      simpa [List.isEmpty_iff, List.length_eq_zero] using hemp
    simp [generate_data_summary, hemp, hlen]
  · have hlen : documents.length ≠ 0 := by
      simpa [List.isEmpty_iff, List.length_eq_zero] using hemp
    simp only [generate_data_summary, hemp, if_false, Bool.false_eq_true]
    constructor
    · split_ifs <;> first | rfl | omega
    · simp [hlen]

lemma insertByKeyDesc_perm {α : Type} (key : α → ℚ) (x : α) (l : List α) :
    (insertByKeyDesc key x l).Perm (x :: l) := by
  induction l with
  | nil => exact List.Perm.refl _
  | cons y ys ih =>
      unfold insertByKeyDesc
      by_cases h : key x ≥ key y
      · rw [if_pos h]
      · rw [if_neg h]
        exact (ih.cons y).trans (List.Perm.swap x y ys)

lemma sortByKeyDesc_perm {α : Type} (key : α → ℚ) (l : List α) :
    (sortByKeyDesc key l).Perm l := by
  induction l with
  | nil => exact List.Perm.refl _
  | cons x xs ih => exact (insertByKeyDesc_perm key x _).trans (ih.cons x)

lemma insertByKeyDesc_map {α β : Type} (key : β → ℚ) (f : α → β) (x : α) (l : List α) :
    insertByKeyDesc key (f x) (l.map f)
      = (insertByKeyDesc (fun a => key (f a)) x l).map f := by
  induction l with
  | nil => rfl
  | cons y ys ih =>
      simp only [List.map_cons]
      unfold insertByKeyDesc
      by_cases h : key (f x) ≥ key (f y)
      · rw [if_pos h, if_pos h]
        simp
      · rw [if_neg h, if_neg h]
        simp [ih]

lemma sortByKeyDesc_map {α β : Type} (key : β → ℚ) (f : α → β) (l : List α) :
    sortByKeyDesc key (l.map f) = (sortByKeyDesc (fun a => key (f a)) l).map f := by
  induction l with
  | nil => rfl
  | cons x xs ih =>
      simp only [List.map_cons, sortByKeyDesc, ih, insertByKeyDesc_map]

lemma insertByKeyDesc_pairwise {α : Type} (key : α → ℚ) (idx : α → Nat) (x : α)
    (l : List α) (hl : l.Pairwise (rankedBefore key idx))
    (hx : ∀ y ∈ l, idx x < idx y) :
    (insertByKeyDesc key x l).Pairwise (rankedBefore key idx) := by
  induction l with
  | nil => simp [insertByKeyDesc]
  | cons y ys ih =>
      rcases List.pairwise_cons.mp hl with ⟨hy, hys⟩
      unfold insertByKeyDesc
      by_cases h : key x ≥ key y
      · rw [if_pos h]
        refine List.pairwise_cons.mpr ⟨?_, hl⟩
        intro z hz
        have hzx : key z ≤ key x := by
          rcases List.mem_cons.mp hz with rfl | hzys
          · exact h
          · rcases hy z hzys with hlt | ⟨heq, _⟩
            · exact le_trans (le_of_lt hlt) h
            · exact le_trans (le_of_eq heq.symm) h
        rcases lt_or_eq_of_le hzx with hlt | heq
        · exact Or.inl hlt
        · exact Or.inr ⟨heq.symm, hx z hz⟩
      · rw [if_neg h]
        refine List.pairwise_cons.mpr
          ⟨?_, ih hys (fun z hz => hx z (List.mem_cons_of_mem y hz))⟩
        intro z hz
        have hz2 : z ∈ x :: ys := (insertByKeyDesc_perm key x ys).subset hz
        rcases List.mem_cons.mp hz2 with rfl | hzys
        · exact Or.inl (lt_of_not_ge h)
        · exact hy z hzys

lemma sortByKeyDesc_pairwise {α : Type} (key : α → ℚ) (idx : α → Nat) (l : List α)
    (hl : l.Pairwise (fun a b => idx a < idx b)) :
    (sortByKeyDesc key l).Pairwise (rankedBefore key idx) := by
  induction l with
  | nil => simp [sortByKeyDesc]
  | cons x xs ih =>
      rcases List.pairwise_cons.mp hl with ⟨hx, hxs⟩
      exact insertByKeyDesc_pairwise key idx x _ (ih hxs)
        (fun y hy => hx y ((sortByKeyDesc_perm key xs).subset hy))

lemma le_fst_of_mem_enumFrom {β : Type} :
    ∀ {l : List β} {n : Nat} {y : Nat × β}, y ∈ List.enumFrom n l → n ≤ y.1 := by
  intro l
  induction l with
  | nil =>
      intro n y h
      simp [List.enumFrom] at h
  | cons x xs ih =>
      intro n y h
      rcases List.mem_cons.mp h with rfl | h2
      · exact le_refl n
      · exact le_trans (Nat.le_succ n) (ih h2)

lemma enumFrom_fst_pairwise {β : Type} (l : List β) :
    ∀ n : Nat, (List.enumFrom n l).Pairwise (fun a b => a.1 < b.1) := by
  induction l with
  | nil =>
      intro n
      simp [List.enumFrom]
  | cons x xs ih =>
      intro n
      refine List.pairwise_cons.mpr ⟨?_, ih (n + 1)⟩
      intro z hz
      exact lt_of_lt_of_le (Nat.lt_succ_self n) (le_fst_of_mem_enumFrom hz)

lemma enum_fst_pairwise {β : Type} (l : List β) :
    l.enum.Pairwise (fun a b => a.1 < b.1) :=
  enumFrom_fst_pairwise l 0

lemma rank_documents_by_quality_eq_sort
    (oracle : DocumentSource → LLMQualityOutcome) (documents : List DocumentSource) :
    rank_documents_by_quality oracle documents
      = sortByKeyDesc (fun d => quality_score (assess_document_quality oracle d))
          documents := by
  simp only [rank_documents_by_quality]
  rw [sortByKeyDesc_map (fun x => quality_score x.2)
        (fun document => (document, assess_document_quality oracle document)) documents]
  rw [List.map_map]
  have hcomp : (Prod.fst ∘ fun document : DocumentSource =>
      (document, assess_document_quality oracle document)) = id := rfl
  rw [hcomp, List.map_id]

/-- C6: quality ranking returns a permutation of its input sorted in
descending order of the mean of the three quality axes, and the sort is
stable: the ranking equals the stable descending sort of the
position-tagged input, which is pairwise ordered by "strictly greater key,
or equal key and smaller input position". -/
theorem rank_documents_by_quality_spec
    (oracle : DocumentSource → LLMQualityOutcome) (documents : List DocumentSource) :
    (rank_documents_by_quality oracle documents).Perm documents
    ∧ (rank_documents_by_quality oracle documents).Pairwise (fun a b =>
        quality_score (assess_document_quality oracle b)
          ≤ quality_score (assess_document_quality oracle a))
    ∧ rank_documents_by_quality oracle documents
        = (sortByKeyDesc (fun p => quality_score (assess_document_quality oracle p.2))
            documents.enum).map Prod.snd
    ∧ (sortByKeyDesc (fun p => quality_score (assess_document_quality oracle p.2))
        documents.enum).Pairwise
        (rankedBefore (fun p => quality_score (assess_document_quality oracle p.2))
          Prod.fst) := by
  have hstable := sortByKeyDesc_pairwise
    (fun p : Nat × DocumentSource => quality_score (assess_document_quality oracle p.2))
    Prod.fst documents.enum (enum_fst_pairwise documents)
  have heq : rank_documents_by_quality oracle documents
      = (sortByKeyDesc (fun p => quality_score (assess_document_quality oracle p.2))
          documents.enum).map Prod.snd := by
    rw [rank_documents_by_quality_eq_sort]
    conv_lhs => rw [← List.enum_map_snd documents]
    rw [sortByKeyDesc_map
      (fun d => quality_score (assess_document_quality oracle d)) Prod.snd documents.enum]
  refine ⟨?_, ?_, heq, hstable⟩
  · rw [rank_documents_by_quality_eq_sort]
    exact sortByKeyDesc_perm _ documents
  · rw [heq]
    refine List.Pairwise.map Prod.snd ?_ hstable
    intro a b hab
    rcases hab with hlt | ⟨heq2, _⟩
    · exact le_of_lt hlt
    · exact le_of_eq heq2.symm

/-- C10: running the analysis step on a state with no documents returns the
state unchanged except that `current_step` becomes
`ResearchStep.ANALYSIS_COMPLETED`: no error is appended, the document list
stays empty, and `analysis_results` keeps its previous value (no summary or
assessment list is rebuilt). -/
theorem analyst_run_no_documents_frame
    (relOracle : DocumentSource → String → String → LLMRelevanceOutcome)
    (qualOracle : DocumentSource → LLMQualityOutcome) (cfg : Config)
    (state : AgentState) (h : state.documents = []) :
    AnalystAgent.run relOracle qualOracle cfg state
      = { state with current_step := ResearchStep.ANALYSIS_COMPLETED.value } := by
  simp [AnalystAgent.run, h]

/-- Witness for C10 at a concrete state with an empty document list. -/
theorem analyst_run_no_documents_frame_witness :
    AnalystAgent.run (fun _ _ _ => LLMRelevanceOutcome.badJson)
        (fun _ => LLMQualityOutcome.badJson) { OPENAI_API_KEY := "k" } stateAfterAnalysis
      = { stateAfterAnalysis with current_step := ResearchStep.ANALYSIS_COMPLETED.value } :=
  analyst_run_no_documents_frame (fun _ _ _ => LLMRelevanceOutcome.badJson)
    (fun _ => LLMQualityOutcome.badJson) { OPENAI_API_KEY := "k" } stateAfterAnalysis rfl

/-- C2 counterexample: with the startup check failing (empty API key, the
only check `Config.validate` performs — there is no reachability probe of
the persistence store), `SupervisorAgent.run` does not raise: it catches
the error and normally returns a freshly initialized WorkflowState carrying
the message in `errors`, contradicting "raises immediately and no
WorkflowState is produced". -/
theorem supervisor_run_startup_failure_returns_state :
    SupervisorAgent.run { OPENAI_API_KEY := "" }
        (fun _ => { next_step := "completed", reasoning := "", should_continue := false,
                    recommendations := [] })
        (fun s _ _ => s) "task-1" "formal methods" "survey recent progress" 10 "medium" none
      = { task := create_research_task "task-1" "formal methods" "survey recent progress"
            10 "medium"
          errors := ["Supervisor error: OpenAI API key is required"] } := by
  rfl

/-- C2 (amended): if the startup validation fails (the raising site is
`config.validate`), the workflow loop is never entered, and `run` returns —
rather than raises — an initialized state whose `errors` list records the
supervisor error; the failure is converted into a normally returned state
by the `except` branch of `SupervisorAgent.run`. -/
theorem supervisor_run_startup_failure_caught
    (cfg : Config) (decide_next : AgentState → Decision)
    (exec : AgentState → String → Option (List String) → AgentState)
    (taskId topic requirements : String) (max_sources : Nat)
    (essay_length : String) (pdf_paths : Option (List String))
    (h : cfg.OPENAI_API_KEY = "") :
    SupervisorAgent.run cfg decide_next exec taskId topic requirements
        max_sources essay_length pdf_paths
      = { initialize_state
            (create_research_task taskId topic requirements max_sources essay_length) with
          errors := ["Supervisor error: OpenAI API key is required"] } := by
  simp [SupervisorAgent.run, Config.validate, h, initialize_state]

/-- Witness for C2 at a concrete configuration with an empty API key. -/
theorem supervisor_run_startup_failure_caught_witness :
    SupervisorAgent.run { OPENAI_API_KEY := "" }
        (fun _ => { next_step := "pdf_processing", reasoning := "go", should_continue := true,
                    recommendations := [] })
        (fun s _ _ => s) "t1" "topic" "req" 10 "medium" none
      = { initialize_state (create_research_task "t1" "topic" "req" 10 "medium") with
          errors := ["Supervisor error: OpenAI API key is required"] } :=
  supervisor_run_startup_failure_caught { OPENAI_API_KEY := "" }
    (fun _ => { next_step := "pdf_processing", reasoning := "go", should_continue := true,
                recommendations := [] })
    (fun s _ _ => s) "t1" "topic" "req" 10 "medium" none rfl

lemma workflowLoop_iterations_le (decide_next : AgentState → Decision)
    (exec : AgentState → String → Option (List String) → AgentState) :
    ∀ (fuel : Nat) (state : AgentState) (pdf_paths : Option (List String))
      (iteration : Nat),
      (workflowLoop decide_next exec fuel state pdf_paths iteration).2
        ≤ iteration + fuel := by
  intro fuel
  induction fuel with
  | zero =>
      intro state p iter
      simp [workflowLoop]
  | succ f ih =>
      intro state p iter
      simp only [workflowLoop]
      split_ifs
      · omega
      · omega
      · have := ih (exec state (decide_next state).next_step p) none (iter + 1)
        omega

/-- C8: the workflow loop always terminates — it is a total function of its
inputs — and for every decision strategy and step executor, including ones
that always continue with a non-COMPLETED step, it executes at most
`max_iterations = 10` iterations before returning the state. -/
theorem run_research_workflow_iteration_bound
    (decide_next : AgentState → Decision)
    (exec : AgentState → String → Option (List String) → AgentState)
    (taskId topic requirements : String) (max_sources : Nat)
    (essay_length : String) (pdf_paths : Option (List String)) :
    (run_research_workflow decide_next exec taskId topic requirements
        max_sources essay_length pdf_paths).2 ≤ 10 := by
  have h := workflowLoop_iterations_le decide_next exec 10
    (initialize_state (create_research_task taskId topic requirements max_sources essay_length))
    pdf_paths 0
  simpa [run_research_workflow] using h

lemma workflowLoop_circuit_breaker_aux (decide_next : AgentState → Decision)
    (exec : AgentState → String → Option (List String) → AgentState)
    (hexec : ∀ s step p, (exec s step p).errors.length = s.errors.length + 1)
    (hdec : ∀ s : AgentState, (decide_next s).should_continue = true
      ∧ (decide_next s).next_step ≠ "completed") :
    ∀ (fuel : Nat) (state : AgentState) (p : Option (List String)) (iteration : Nat),
      state.errors.length < 6 → 6 ≤ state.errors.length + fuel →
      (workflowLoop decide_next exec fuel state p iteration).2
          = iteration + (6 - state.errors.length)
      ∧ (workflowLoop decide_next exec fuel state p iteration).1.errors.length = 6 := by
  intro fuel
  induction fuel with
  | zero =>
      intro state p iter h1 h2
      omega
  | succ f ih =>
      intro state p iter h1 h2
      have hc1 : ¬(¬((decide_next state).should_continue = true)
          ∨ (decide_next state).next_step = "completed") := by
        rcases hdec state with ⟨ha, hb⟩
        intro hcon
        rcases hcon with hcon | hcon
        · exact hcon ha
        · exact hb hcon
      have hlen : (exec state (decide_next state).next_step p).errors.length
          = state.errors.length + 1 := hexec state (decide_next state).next_step p
      simp only [workflowLoop]
      rw [if_neg hc1]
      by_cases h5 : (exec state (decide_next state).next_step p).errors.length > 5
      · rw [if_pos h5]
        dsimp only
        constructor
        · omega
        · omega
      · rw [if_neg h5]
        have hrec := ih (exec state (decide_next state).next_step p) none (iter + 1)
          (by omega) (by omega)
        constructor
        · omega
        · exact hrec.2

/-- C9: if every executed step handler appends exactly one error and the
decision strategy always continues with a non-COMPLETED step, then starting
from the freshly initialized state (no errors) the loop returns normally at
the end of iteration 6 — the first iteration in which `len(errors) > 5`
holds, i.e. right after the 6th error is recorded — with the accumulated
state (6 errors) returned. -/
theorem run_research_workflow_circuit_breaker
    (decide_next : AgentState → Decision)
    (exec : AgentState → String → Option (List String) → AgentState)
    (taskId topic requirements : String) (max_sources : Nat)
    (essay_length : String) (pdf_paths : Option (List String))
    (hexec : ∀ s step p, (exec s step p).errors.length = s.errors.length + 1)
    (hdec : ∀ s : AgentState, (decide_next s).should_continue = true
      ∧ (decide_next s).next_step ≠ "completed") :
    (run_research_workflow decide_next exec taskId topic requirements
        max_sources essay_length pdf_paths).2 = 6
    ∧ (run_research_workflow decide_next exec taskId topic requirements
        max_sources essay_length pdf_paths).1.errors.length = 6 := by
  have hzero : (initialize_state (create_research_task taskId topic requirements
      max_sources essay_length)).errors.length = 0 := rfl
  have h := workflowLoop_circuit_breaker_aux decide_next exec hexec hdec 10
    (initialize_state (create_research_task taskId topic requirements max_sources essay_length))
    pdf_paths 0 (by omega) (by omega)
  obtain ⟨h1, h2⟩ := h
  rw [hzero] at h1
  constructor
  · simpa [run_research_workflow] using h1
  · simpa [run_research_workflow] using h2

/-- Witness for C9 with a concrete always-continue strategy and a handler
appending one error per call. -/
theorem run_research_workflow_circuit_breaker_witness :
    (run_research_workflow
        (fun _ => { next_step := "pdf_processing", reasoning := "r",
                    should_continue := true, recommendations := [] })
        (fun s _ _ => { s with errors := s.errors ++ ["E"] })
        "t1" "topic" "req" 10 "medium" none).2 = 6
    ∧ (run_research_workflow
        (fun _ => { next_step := "pdf_processing", reasoning := "r",
                    should_continue := true, recommendations := [] })
        (fun s _ _ => { s with errors := s.errors ++ ["E"] })
        "t1" "topic" "req" 10 "medium" none).1.errors.length = 6 :=
  run_research_workflow_circuit_breaker
    (fun _ => { next_step := "pdf_processing", reasoning := "r",
                should_continue := true, recommendations := [] })
    (fun s _ _ => { s with errors := s.errors ++ ["E"] })
    "t1" "topic" "req" 10 "medium" none
    (fun s step p => by simp)
    (fun s => ⟨rfl, show "pdf_processing" ≠ "completed" by decide⟩)
